import Mathlib

/-!
Verification of the Folio signal-analysis core against its specification.

Shallow embedding of the Python source in Lean 4:
* `backend/domain/fx_analysis.py` — FX rate-change alerts, risk level, and
  exchange-timing analysis (`is_recent_high`, `count_consecutive_increases`,
  `assess_exchange_timing`, `determine_fx_risk_level`).
* `backend/logic.py` — RSI (Wilder), moving averages, the moat (gross-margin
  YoY) check, and the per-category scan.
* `backend/application/formatters.py` — status-line construction.
* The alert-dispatch cooldown step (modelled from the spec, see below).

Python floats are modelled as `ℚ`; Python's `round(x, 2)` (round half to
even) as `pyRound2`; `None`-able values as `Option`; Chinese message strings
as inductive label types carrying the interpolated numbers.
-/

namespace Folio

/-- Python's `round` to an integer: round half to even (banker's rounding). -/
def pyRoundInt (x : ℚ) : ℤ :=
  let f : ℤ := ⌊x⌋
  let frac : ℚ := x - f
  if frac < 1/2 then f
  else if 1/2 < frac then f + 1
  else if 2 ∣ f then f else f + 1

/-- Python's `round(x, 2)`: round to 2 decimal places, half to even. -/
def pyRound2 (x : ℚ) : ℚ := (pyRoundInt (x * 100) : ℚ) / 100

/-- Python's `max` over a list of closes; only ever applied to nonempty
lists in the source (`max(d["close"] for d in recent)`). -/
def listMax : List ℚ → ℚ
  | [] => 0
  | a :: t => t.foldl max a

/-- Python's slice `l[-k:]` as used on a list of length ≥ k: the last `k`
elements, except that `l[-0:]` is the whole list. -/
def pySliceLast (l : List ℚ) (k : ℕ) : List ℚ :=
  if k = 0 then l else l.drop (l.length - k)

/-! ## `backend/domain/fx_analysis.py` -/

/-- Embeds `FXAlertType` (from `domain/enums.py`, referenced by `fx_analysis.py`). -/
inductive FXAlertType where
  | dailySpike
  | shortTermSwing
  | longTermTrend
  deriving DecidableEq, Repr

/-- Embeds `FXRateAlert` dataclass. -/
structure FXRateAlert where
  pair : String
  alert_type : FXAlertType
  change_pct : ℚ
  direction : String
  current_rate : ℚ
  period_label : String
  deriving DecidableEq, Repr

/-- Embeds `determine_fx_risk_level`: "high" if any daily-spike alert is present,
else "medium" if any short-term-swing alert is present, else "low". -/
def determine_fx_risk_level (all_alerts : List FXRateAlert) : String :=
  if all_alerts.any (fun a => a.alert_type = FXAlertType.dailySpike) then "high"
  else if all_alerts.any (fun a => a.alert_type = FXAlertType.shortTermSwing) then "medium"
  else "low"

/-- The recommendation/reasoning branch taken by `assess_exchange_timing`
(each constructor stands for one pair of `recommendation_zh`/`reasoning_zh`
strings produced by the source). -/
inductive TimingLabel where
  /-- Message "建議考慮換匯" / near high and consecutive rises reached threshold. -/
  | considerConverting
  /-- Message "接近高點但上漲動能不足，可再觀察". -/
  | nearHighMomentumInsufficient
  /-- Message "持續上漲但未達高點，可再等待". -/
  | risingNotAtHigh
  /-- Message "暫無換匯訊號". -/
  | noSignal
  /-- Message "無歷史資料，無法分析" / "歷史資料不足". -/
  | insufficientHistory
  deriving DecidableEq, Repr

/-- Embeds `FXTimingResult` dataclass (history closes modelled as `ℚ`; the two
Chinese text fields are modelled by `label`). -/
structure FXTimingResult where
  base_currency : String
  quote_currency : String
  current_rate : ℚ
  is_recent_high : Bool
  lookback_high : ℚ
  lookback_days : ℕ
  consecutive_increases : ℕ
  consecutive_threshold : ℕ
  should_alert : Bool
  label : TimingLabel
  deriving DecidableEq, Repr

/-- Embeds `is_recent_high(current_rate, history, lookback_days, tolerance_pct=2.0)`.
History entries are modelled by their `close` values. -/
def is_recent_high (current_rate : ℚ) (history : List ℚ) (lookback_days : ℕ)
    (tolerance_pct : ℚ := 2) : Bool × ℚ :=
  match history with
  | [] => (false, 0)
  | _ :: _ =>
    let recent :=
      if history.length ≥ lookback_days then pySliceLast history lookback_days
      else history
    let high := listMax recent
    if high ≤ 0 then (false, 0)
    else
      let threshold := high * (1 - tolerance_pct / 100)
      (decide (current_rate ≥ threshold), high)

/-- The backward scan of `count_consecutive_increases`, on the reversed
history: count strictly decreasing adjacent steps of the reversed list
(`history[i] > history[i-1]` becomes `a > b` for consecutive `a, b`). -/
def countIncFromEnd : List ℚ → ℕ
  | a :: b :: t => if a > b then countIncFromEnd (b :: t) + 1 else 0
  | _ => 0

/-- Embeds `count_consecutive_increases(history)`: number of strictly increasing
adjacent pairs counted from the most recent point backward, stopping at the
first non-increase; 0 for fewer than 2 points. -/
def count_consecutive_increases (history : List ℚ) : ℕ :=
  if history.length < 2 then 0 else countIncFromEnd history.reverse

/-- Embeds `assess_exchange_timing(base, quote, history, lookback_days,
consecutive_threshold)`. -/
def assess_exchange_timing (base_currency quote_currency : String)
    (history : List ℚ) (lookback_days consecutive_threshold : ℕ) :
    FXTimingResult :=
  match history with
  | [] =>
    { base_currency := base_currency
      quote_currency := quote_currency
      current_rate := 0
      is_recent_high := false
      lookback_high := 0
      lookback_days := lookback_days
      consecutive_increases := 0
      consecutive_threshold := consecutive_threshold
      should_alert := false
      label := TimingLabel.insufficientHistory }
  | _ :: _ =>
    let current_rate := history.getLastD 0
    let nh := is_recent_high current_rate history lookback_days
    let near_high := nh.1
    let high := nh.2
    let consec := count_consecutive_increases history
    let should_alert := near_high && decide (consec ≥ consecutive_threshold)
    let label :=
      if should_alert then TimingLabel.considerConverting
      else if near_high then TimingLabel.nearHighMomentumInsufficient
      else if consec ≥ consecutive_threshold then TimingLabel.risingNotAtHigh
      else TimingLabel.noSignal
    { base_currency := base_currency
      quote_currency := quote_currency
      current_rate := current_rate
      is_recent_high := near_high
      lookback_high := high
      lookback_days := lookback_days
      consecutive_increases := consec
      consecutive_threshold := consecutive_threshold
      should_alert := should_alert
      label := label }

/-! ## `backend/logic.py` -/

/-- One Wilder smoothing step of `_compute_rsi`'s loop body, acting on the
running `(avg_gain, avg_loss)` pair:
`avg = (avg * (period - 1) + gain_or_loss) / period`. -/
def wilderStep (period : ℕ) (p : ℚ × ℚ) (d : ℚ) : ℚ × ℚ :=
  let gain := if d > 0 then d else 0
  let loss := if d < 0 then -d else 0
  ((p.1 * ((period : ℚ) - 1) + gain) / period,
   (p.2 * ((period : ℚ) - 1) + loss) / period)

/-- Embeds `_compute_rsi(closes, period=14)`: Wilder's smoothed RSI; `none` when
fewer than `period + 1` closes are given. -/
def compute_rsi (closes : List ℚ) (period : ℕ := 14) : Option ℚ :=
  if closes.length < period + 1 then none
  else
    let deltas := List.zipWith (· - ·) closes.tail closes
    let gains := (deltas.take period).map (fun d => if d > 0 then d else 0)
    let losses := (deltas.take period).map (fun d => if d < 0 then -d else 0)
    let avg_gain := gains.sum / period
    let avg_loss := losses.sum / period
    let smoothed := (deltas.drop period).foldl (wilderStep period) (avg_gain, avg_loss)
    if smoothed.2 = 0 then some 100
    else
      let rs := smoothed.1 / smoothed.2
      some (pyRound2 (100 - 100 / (1 + rs)))

/-- The Wilder smoothing step written the way the spec words it: exponential
smoothing of the remaining delta with weight `1/period`. Introduced only to
compare `compute_rsi` against the spec's phrasing. -/
def wilderStepSpec (period : ℕ) (p : ℚ × ℚ) (d : ℚ) : ℚ × ℚ :=
  let gain := if d > 0 then d else 0
  let loss := if d < 0 then -d else 0
  (p.1 * (1 - 1 / period) + gain * (1 / period),
   p.2 * (1 - 1 / period) + loss * (1 / period))

/-- The long-window moving-average expression of `get_technical_signals`
(line 91): `round(sum(closes[-200:]) / min(len(closes), 200), 2)` when
`len(closes) >= 200`, else `None`. -/
def technical_ma200 (closes : List ℚ) : Option ℚ :=
  if closes.length ≥ 200 then
    some (pyRound2 ((pySliceLast closes 200).sum / (min closes.length 200 : ℕ)))
  else none

/-- One quarterly column of `stock.quarterly_financials`, restricted to the
two rows `check_moat` reads; `none` models a missing row (`KeyError`). -/
structure QuarterCol where
  grossProfit : Option ℚ
  totalRevenue : Option ℚ
  deriving DecidableEq, Repr

/-- Embeds `_get_gross_margin(col)` inside `check_moat`: `round(gross_profit /
revenue * 100, 2)`, `None` on a missing row or zero revenue. -/
def get_gross_margin (c : QuarterCol) : Option ℚ :=
  match c.grossProfit, c.totalRevenue with
  | some gp, some rev => if rev ≠ 0 then some (pyRound2 (gp / rev * 100)) else none
  | _, _ => none

/-- The possible outcomes of `check_moat`'s data-dependent core (the
fetch/cache/exception plumbing is outside the embedding): each constructor
stands for one returned dict shape. -/
inductive MoatOutcome where
  /-- The financials table is empty: "無法取得季報資料" warning. -/
  | noData
  /-- fewer than 5 quarterly columns: "季報資料不足" warning, no margins. -/
  | insufficientQuarters
  /-- a margin could not be extracted: "無法從季報中擷取毛利率資料" warning. -/
  | missingMargin
  /-- Negative change: deterioration warning with both margins and the change. -/
  | deterioration (current previous change : ℚ)
  /-- Nonnegative change: stable status with both margins and the change. -/
  | stable (current previous change : ℚ)
  deriving DecidableEq, Repr

/-- Embeds `check_moat`'s decision core over the list of quarterly columns: needs
at least 5 columns, compares column 0 (latest) with column 4 (year ago). -/
def check_moat_core (cols : List QuarterCol) : MoatOutcome :=
  match cols with
  | [] => MoatOutcome.noData
  | c0 :: _ :: _ :: _ :: c4 :: _ =>
    match get_gross_margin c0, get_gross_margin c4 with
    | some cur, some prev =>
      let change := pyRound2 (cur - prev)
      if change < 0 then MoatOutcome.deterioration cur prev change
      else MoatOutcome.stable cur prev change
    | _, _ => MoatOutcome.missingMargin
  | _ => MoatOutcome.insufficientQuarters

/-- The fields `scan_stock` and `build_signal_status` read from the
technical-signals dict via `.get(...)`; every field is optional, mirroring
dict lookup. -/
structure SignalsDict where
  price : Option ℚ
  rsi : Option ℚ
  ma200 : Option ℚ
  ma60 : Option ℚ
  bias : Option ℚ
  deriving DecidableEq, Repr

/-- Result of `get_technical_signals` as seen by `scan_stock`: either the
error dict or a signals dict. -/
inductive SignalsResult where
  | err (msg : String)
  | ok (d : SignalsDict)
  deriving DecidableEq, Repr

/-- Embeds `StockCategory` (from `domain/enums.py`). -/
inductive StockCategory where
  | trendSetter
  | moat
  | growth
  | bond
  | cash
  deriving DecidableEq, Repr

/-- One entry of the alert list returned by `scan_stock`; constructors stand
for the message strings, carrying the interpolated numbers. -/
inductive StockAlert where
  /-- Message "RSI=…，進入超賣區間（風向球機會訊號）". -/
  | rsiOversold (ticker : String) (rsi : ℚ)
  /-- Message "股價 … 跌破 200MA (…)（風向球警戒）". -/
  | below200MA (ticker : String) (price ma200 : ℚ)
  /-- Message "股價 … 跌破 60MA (…)（成長動能消失）". -/
  | below60MA (ticker : String) (price ma60 : ℚ)
  /-- the `warning` string of a moat-check result. -/
  | moatWarning (ticker : String) (outcome : MoatOutcome)
  /-- the `error` string of a failed technical-signals fetch. -/
  | errorMsg (msg : String)
  deriving DecidableEq, Repr

/-- Whether a `check_moat` result dict carries a `"warning"` key (every
outcome except the stable status does). -/
def moatHasWarning : MoatOutcome → Bool
  | MoatOutcome.stable _ _ _ => false
  | _ => true

/-- Embeds `scan_stock(ticker, category)`'s decision core, over the fetched
technical signals (`none` models `get_technical_signals` returning `None`)
and the fetched moat outcome. -/
def scan_stock_core (ticker : String) (category : StockCategory)
    (signals : Option SignalsResult) (moat : Option MoatOutcome) :
    List StockAlert :=
  match category with
  | StockCategory.trendSetter =>
    match signals with
    | some (SignalsResult.ok d) =>
      (match d.rsi with
       | some r => if r < 30 then [StockAlert.rsiOversold ticker r] else []
       | none => []) ++
      (match d.ma200, d.price with
       | some m, some p => if p < m then [StockAlert.below200MA ticker p m] else []
       | _, _ => [])
    | some (SignalsResult.err m) => [StockAlert.errorMsg m]
    | none => []
  | StockCategory.moat =>
    match moat with
    | some o => if moatHasWarning o then [StockAlert.moatWarning ticker o] else []
    | none => []
  | StockCategory.growth =>
    match signals with
    | some (SignalsResult.ok d) =>
      (match d.ma60, d.price with
       | some m, some p => if p < m then [StockAlert.below60MA ticker p m] else []
       | _, _ => [])
    | some (SignalsResult.err m) => [StockAlert.errorMsg m]
    | none => []
  | _ => []

/-! ## `backend/application/formatters.py` -/

/-- One status line produced by `build_signal_status`; constructors stand
for the message strings, carrying the interpolated numbers. -/
inductive StatusPart where
  /-- Message "🟢 RSI=… 超賣區間（可能是機會）". -/
  | rsiOversold (rsi : ℚ)
  /-- Message "🔴 RSI=… 超買區間（留意回檔）". -/
  | rsiOverbought (rsi : ℚ)
  /-- Message "⚪ RSI=… 中性". -/
  | rsiNeutral (rsi : ℚ)
  /-- Message "🔴 股價 … 跌破 200MA (…)". -/
  | below200 (price : Option ℚ) (ma200 : ℚ)
  /-- Message "🟢 股價 … 站穩 200MA (…)". -/
  | above200 (price : Option ℚ) (ma200 : ℚ)
  /-- Message "⚠️ 資料不足 … 天，無法計算 200MA" — the insufficient-data marker. -/
  | insufficient200
  /-- Message "🔴 股價 … 跌破 60MA (…)". -/
  | below60 (price : Option ℚ) (ma60 : ℚ)
  /-- Message "🟢 股價 … 站穩 60MA (…)". -/
  | above60 (price : Option ℚ) (ma60 : ℚ)
  /-- Message "🔴 乖離率 …% 過熱". -/
  | biasOverheated (bias : ℚ)
  /-- Message "🟢 乖離率 …% 超跌". -/
  | biasOversold (bias : ℚ)
  deriving DecidableEq, Repr

/-- Embeds `build_signal_status(signals)`. The threshold constants live in
`domain/constants.py`, which is not part of the embedded sources; they are
taken as explicit parameters (`rsiOversold`/`rsiOverbought` are 30/70 in the
deployed constants, matching the literals of `logic.py`). -/
def build_signal_status (rsiOversoldT rsiOverboughtT biasHotT biasColdT : ℚ)
    (d : SignalsDict) : List StatusPart :=
  (match d.rsi with
   | some r =>
     if r < rsiOversoldT then [StatusPart.rsiOversold r]
     else if r > rsiOverboughtT then [StatusPart.rsiOverbought r]
     else [StatusPart.rsiNeutral r]
   | none => []) ++
  (match d.ma200 with
   | some m =>
     match d.price with
     | some p => if p < m then [StatusPart.below200 (some p) m]
                 else [StatusPart.above200 (some p) m]
     | none => [StatusPart.above200 none m]
   | none => [StatusPart.insufficient200]) ++
  (match d.ma60 with
   | some m =>
     match d.price with
     | some p => if p < m then [StatusPart.below60 (some p) m]
                 else [StatusPart.above60 (some p) m]
     | none => [StatusPart.above60 none m]
   | none => []) ++
  (match d.bias with
   | some b =>
     if b > biasHotT then [StatusPart.biasOverheated b]
     else if b < biasColdT then [StatusPart.biasOversold b]
     else []
   | none => [])

/-- Whether a status line is the explicit insufficient-data marker. -/
def isInsufficientMarker : StatusPart → Bool
  | StatusPart.insufficient200 => true
  | _ => false

/-- Whether a status line is one of the RSI lines. -/
def isRsiPart : StatusPart → Bool
  | StatusPart.rsiOversold _ => true
  | StatusPart.rsiOverbought _ => true
  | StatusPart.rsiNeutral _ => true
  | _ => false

/-- Whether a status line is one of the 60MA lines. -/
def isMa60Part : StatusPart → Bool
  | StatusPart.below60 _ _ => true
  | StatusPart.above60 _ _ => true
  | _ => false

/-! ## Alert dispatcher (cooldown state machine) -/

/-- Dispatcher state of one watch after a scan cycle (spec §4.6). -/
inductive WatchState where
  | idle
  | candidate
  | fired
  | suppressed
  deriving DecidableEq, Repr

/-- Modelled from the spec: `send_fx_watch_alerts` in
`application/fx_watch_service.py` is not among the provided sources (only
its caller `api/fx_watch_routes.py` is), so the per-watch cooldown step is
taken from spec §4.6: a watch whose classifier says `should_alert=true` is a
CANDIDATE; a CANDIDATE becomes SUPPRESSED (no send, timestamp unchanged)
when `now - last_alerted_at < cooldown_hours`, and FIRED (send, timestamp
set to `now`) otherwise or when it never alerted; a non-CANDIDATE stays IDLE
and never reaches the notify step. Times are in hours, modelled as `ℚ`.
Returns `(state, notification sent, new last_alerted_at)`. -/
def dispatch_watch (should_alert : Bool) (last_alerted_at : Option ℚ)
    (cooldown_hours : ℚ) (now : ℚ) : WatchState × Bool × Option ℚ :=
  if should_alert then
    match last_alerted_at with
    | some t =>
      if now - t < cooldown_hours then (WatchState.suppressed, false, some t)
      else (WatchState.fired, true, some now)
    | none => (WatchState.fired, true, some now)
  else (WatchState.idle, false, last_alerted_at)

/-- The RSI computation as the spec words it: seed with the average of the
first `period` gains and losses, then exponentially smooth each remaining
delta with weight `1/period` (`wilderStepSpec`); 100 exactly when the final
average loss is zero, else `100 - 100/(1 + rs)` rounded to 2 decimals.
Introduced only to compare `compute_rsi` against the spec's phrasing. -/
def compute_rsi_spec (closes : List ℚ) (period : ℕ := 14) : Option ℚ :=
  if closes.length < period + 1 then none
  else
    let deltas := List.zipWith (· - ·) closes.tail closes
    let gains := (deltas.take period).map (fun d => if d > 0 then d else 0)
    let losses := (deltas.take period).map (fun d => if d < 0 then -d else 0)
    let avg_gain := gains.sum / period
    let avg_loss := losses.sum / period
    let smoothed := (deltas.drop period).foldl (wilderStepSpec period) (avg_gain, avg_loss)
    if smoothed.2 = 0 then some 100
    else
      let rs := smoothed.1 / smoothed.2
      some (pyRound2 (100 - 100 / (1 + rs)))

/-! ## Theorems -/

/-- On a strictly increasing close series, every delta
`closes[i+1] - closes[i]` is positive. -/
theorem deltas_pos_of_chain_lt :
    ∀ l : List ℚ, List.Chain' (· < ·) l →
      ∀ d ∈ List.zipWith (· - ·) l.tail l, 0 < d := by
  intro l
  induction l with
  | nil => intro _ d hd; simp at hd
  | cons a t ih =>
    intro hc d hd
    cases t with
    | nil => simp at hd
    | cons b t' =>
      rw [List.chain'_cons] at hc
      simp only [List.tail_cons, List.zipWith_cons_cons, List.mem_cons] at hd
      rcases hd with rfl | hd
      · linarith [hc.1]
      · exact ih hc.2 d (by simpa using hd)

/-- C1: `assess_exchange_timing` returns a verdict whose `should_alert` is
true exactly when the near-high check (`is_recent_high` at the latest close,
default tolerance 2%) is true and the consecutive-increase count reaches the
threshold; for empty history it returns the distinct terminal case (rate 0,
not near high, lookback high 0, 0 consecutive increases, no alert, the
insufficient-history label); and on history `[30, 30.5, 31, 31.5, 32]` with
`lookback_days = 30` and `consecutive_threshold = 3` it returns
`is_recent_high = true`, `lookback_high = 32`, `consecutive_increases = 4`,
`should_alert = true`. -/
theorem C1_assess_exchange_timing (base quote : String) (history : List ℚ)
    (lb thr : ℕ) :
    ((assess_exchange_timing base quote history lb thr).should_alert =
      ((is_recent_high (history.getLastD 0) history lb 2).1 &&
        decide (count_consecutive_increases history ≥ thr)))
    ∧ (history = [] →
        assess_exchange_timing base quote history lb thr =
          ⟨base, quote, 0, false, 0, lb, 0, thr, false,
            TimingLabel.insufficientHistory⟩)
    ∧ assess_exchange_timing "USD" "TWD" [30, 30.5, 31, 31.5, 32] 30 3 =
        ⟨"USD", "TWD", 32, true, 32, 30, 4, 3, true,
          TimingLabel.considerConverting⟩ := by
  refine ⟨?_, ?_, ?_⟩
  · cases history with
    | nil => simp [assess_exchange_timing, is_recent_high,
        count_consecutive_increases]
    | cons a t => simp [assess_exchange_timing]
  · intro h
    subst h
    simp [assess_exchange_timing]
  · simp [assess_exchange_timing, is_recent_high, pySliceLast, listMax,
      count_consecutive_increases, countIncFromEnd, TimingLabel.considerConverting]
    norm_num

/-- Witness for C1 at the concrete empty history. -/
theorem C1_assess_exchange_timing_witness :
    assess_exchange_timing "USD" "TWD" ([] : List ℚ) 30 3 =
      ⟨"USD", "TWD", 0, false, 0, 30, 0, 3, false,
        TimingLabel.insufficientHistory⟩ :=
  (C1_assess_exchange_timing "USD" "TWD" [] 30 3).2.1 rfl

/-- C3: with period 14, `compute_rsi` returns `none` on fewer than 15
closes; otherwise it agrees with the spec's formulation (seed averages of
the first 14 gains/losses, Wilder smoothing of the remaining deltas with
weight 1/14, exact 100 on zero final average loss, else
`100 - 100/(1 + rs)` rounded to 2 decimals); and any strictly increasing
15-point series yields exactly 100. -/
theorem C3_compute_rsi :
    (∀ closes : List ℚ, closes.length < 15 → compute_rsi closes 14 = none)
    ∧ (∀ closes : List ℚ, compute_rsi closes 14 = compute_rsi_spec closes 14)
    ∧ (∀ closes : List ℚ, closes.length = 15 →
        List.Chain' (· < ·) closes → compute_rsi closes 14 = some 100) := by
  refine ⟨?_, ?_, ?_⟩
  · intro closes h
    simp [compute_rsi, h]
  · intro closes
    by_cases h : closes.length < 15
    · simp [compute_rsi, compute_rsi_spec, h]
    · have hstep : ∀ (p : ℚ × ℚ) (d : ℚ),
          wilderStep 14 p d = wilderStepSpec 14 p d := by
        intro p d
        simp only [wilderStep, wilderStepSpec, Prod.mk.injEq]
        constructor <;> · push_cast; ring
      simp only [compute_rsi, compute_rsi_spec, h, if_false]
      rw [List.foldl_ext (wilderStep 14) (wilderStepSpec 14) _
        (fun p d _ => hstep p d)]
  · intro closes hlen hchain
    have hd : ∀ d ∈ List.zipWith (· - ·) closes.tail closes, 0 < d :=
      deltas_pos_of_chain_lt closes hchain
    have hdlen : (List.zipWith (· - ·) closes.tail closes).length = 14 := by
      simp [List.length_zipWith, hlen]
    have hnl : ¬ closes.length < 15 := by omega
    have hdrop : (List.zipWith (· - ·) closes.tail closes).drop 14 = [] := by
      rw [List.drop_eq_nil_iff, hdlen]
    have hloss :
        ((List.zipWith (· - ·) closes.tail closes).take 14).map
          (fun d => if d < 0 then -d else 0) =
        List.replicate 14 0 := by
      rw [List.eq_replicate_iff]
      constructor
      · simp [hdlen]
      · intro x hx
        simp only [List.mem_map] at hx
        obtain ⟨d, hdm, rfl⟩ := hx
        have := hd d (List.mem_of_mem_take hdm)
        simp [not_lt.mpr (le_of_lt this)]
    simp only [compute_rsi, hnl, if_false, hdrop, List.foldl_nil, hloss]
    simp

/-- Witness for C3 at concrete close series. -/
theorem C3_compute_rsi_witness :
    compute_rsi [(3 : ℚ)] 14 = none ∧
    compute_rsi [(1 : ℚ), 2, 3, 4, 5, 6, 7, 8, 9, 10, 11, 12, 13, 14, 15] 14 =
      some 100 :=
  ⟨C3_compute_rsi.1 [3] (by norm_num),
   C3_compute_rsi.2.2 [1, 2, 3, 4, 5, 6, 7, 8, 9, 10, 11, 12, 13, 14, 15]
     (by rfl)
     (by simp only [List.chain'_cons, List.chain'_singleton]; norm_num)⟩

/-- C9: the long-window moving average of `get_technical_signals` is
unavailable when fewer than 200 closes exist, and otherwise is the mean of
the last 200 closes with divisor exactly 200 (the relaxed
`min(len, window)` divisor is never other than 200 when the branch is
taken), rounded to 2 decimals. -/
theorem C9_technical_ma200 (closes : List ℚ) :
    (closes.length < 200 → technical_ma200 closes = none)
    ∧ (200 ≤ closes.length →
        technical_ma200 closes =
          some (pyRound2 ((closes.drop (closes.length - 200)).sum / 200))
        ∧ (closes.drop (closes.length - 200)).length = 200) := by
  constructor
  · intro h
    simp [technical_ma200, not_le.mpr h]
  · intro h
    have hmin : min closes.length 200 = 200 := Nat.min_eq_right h
    constructor
    · simp only [technical_ma200, ge_iff_le, h, if_true, hmin, pySliceLast]
      norm_num
    · simp [List.length_drop]
      omega

/-- Witness for C9 at concrete close series. -/
theorem C9_technical_ma200_witness :
    technical_ma200 ([] : List ℚ) = none ∧
    technical_ma200 (List.replicate 200 (1 : ℚ)) = some 1 := by
  constructor
  · exact (C9_technical_ma200 []).1 (by norm_num)
  · have h := ((C9_technical_ma200 (List.replicate 200 (1 : ℚ))).2
      (by rw [List.length_replicate])).1
    rw [h]
    have h200 : (List.replicate 200 (1 : ℚ)).drop
        ((List.replicate 200 (1 : ℚ)).length - 200) =
        List.replicate 200 (1 : ℚ) := by
      rw [List.length_replicate, Nat.sub_self, List.drop_zero]
    rw [h200, List.sum_replicate]
    norm_num [pyRound2, pyRoundInt]

/-- C7: `is_recent_high` is monotonic in its rate argument — for fixed
history, lookback window and tolerance, raising the rate never flips a true
near-high result to false. -/
theorem C7_is_recent_high_monotone (history : List ℚ) (lb : ℕ)
    (tol r1 r2 : ℚ) (hr : r1 ≤ r2)
    (h1 : (is_recent_high r1 history lb tol).1 = true) :
    (is_recent_high r2 history lb tol).1 = true := by
  cases history with
  | nil => simp [is_recent_high] at h1
  | cons a t =>
    simp only [is_recent_high] at h1 ⊢
    set recent := if (a :: t).length ≥ lb then pySliceLast (a :: t) lb
      else a :: t with hrec
    by_cases hpos : listMax recent ≤ 0
    · simp [hpos] at h1
    · simp only [hpos, if_false, decide_eq_true_eq] at h1 ⊢
      exact le_trans h1 hr

/-- Witness for C7 at a concrete history and rate pair. -/
theorem C7_is_recent_high_monotone_witness :
    (is_recent_high 32 [30, 32] 30 2).1 = true :=
  C7_is_recent_high_monotone [30, 32] 30 2 31.5 32 (by norm_num)
    (by simp [is_recent_high, pySliceLast, listMax]; norm_num)

/-- C8: `count_consecutive_increases` is 0 for fewer than 2 points;
otherwise it counts strictly increasing adjacent pairs from the most recent
point backward, stopping at the first flat or decreasing pair (expressed by
the recurrence on a history with at least its last two points explicit); in
particular it is 0 on the flat series `[10, 10]`. -/
theorem C8_count_consecutive_increases :
    (∀ h : List ℚ, h.length < 2 → count_consecutive_increases h = 0)
    ∧ (∀ (h : List ℚ) (a b : ℚ),
        count_consecutive_increases (h ++ [a, b]) =
          if a < b then count_consecutive_increases (h ++ [a]) + 1 else 0)
    ∧ count_consecutive_increases [10, 10] = 0 := by
  refine ⟨?_, ?_, ?_⟩
  · intro h hlen
    simp [count_consecutive_increases, hlen]
  · intro h a b
    have hrev : (h ++ [a, b]).reverse = b :: a :: h.reverse := by simp
    have hlen : ¬ (h ++ [a, b]).length < 2 := by simp
    rw [count_consecutive_increases, if_neg hlen, hrev]
    cases h with
    | nil =>
      simp [countIncFromEnd, count_consecutive_increases]
    | cons c t =>
      have hlen1 : ¬ ((c :: t) ++ [a]).length < 2 := by simp
      rw [countIncFromEnd, count_consecutive_increases, if_neg hlen1]
      simp [gt_iff_lt]
  · simp [count_consecutive_increases, countIncFromEnd]

/-- Witness for C8 at concrete inputs. -/
theorem C8_count_consecutive_increases_witness :
    count_consecutive_increases [(7 : ℚ)] = 0 ∧
    count_consecutive_increases [(1 : ℚ), 2, 3] =
      (if (2 : ℚ) < 3 then count_consecutive_increases [(1 : ℚ), 2] + 1
       else 0) :=
  ⟨C8_count_consecutive_increases.1 [7] (by norm_num),
   C8_count_consecutive_increases.2.1 [1] 2 3⟩

/-- C4: in `check_moat`'s margin-trend evaluation (at least 5 quarterly
columns present), a missing current or year-ago gross margin yields the
unavailable outcome carrying no change value; otherwise the change is
`round(current - previous, 2)`, the outcome is the deterioration warning
exactly when the change is strictly negative, and the stable status
otherwise — including a change of exactly zero. -/
theorem C4_margin_trend (c0 c1 c2 c3 c4 : QuarterCol)
    (rest : List QuarterCol) :
    (get_gross_margin c0 = none ∨ get_gross_margin c4 = none →
      check_moat_core (c0 :: c1 :: c2 :: c3 :: c4 :: rest) =
        MoatOutcome.missingMargin)
    ∧ (∀ cur prev : ℚ, get_gross_margin c0 = some cur →
        get_gross_margin c4 = some prev →
        check_moat_core (c0 :: c1 :: c2 :: c3 :: c4 :: rest) =
          if pyRound2 (cur - prev) < 0 then
            MoatOutcome.deterioration cur prev (pyRound2 (cur - prev))
          else MoatOutcome.stable cur prev (pyRound2 (cur - prev)))
    ∧ (∀ cur prev : ℚ, get_gross_margin c0 = some cur →
        get_gross_margin c4 = some prev → pyRound2 (cur - prev) = 0 →
        check_moat_core (c0 :: c1 :: c2 :: c3 :: c4 :: rest) =
          MoatOutcome.stable cur prev 0) := by
  refine ⟨?_, ?_, ?_⟩
  · intro h
    cases h0 : get_gross_margin c0 <;> cases h4 : get_gross_margin c4
    all_goals simp only [check_moat_core, h0, h4]
    all_goals first
      | rfl
      | simp_all
  · intro cur prev h0 h4
    simp [check_moat_core, h0, h4]
  · intro cur prev h0 h4 hch
    simp [check_moat_core, h0, h4, hch]

/-- Witness for C4 at concrete quarterly columns. -/
theorem C4_margin_trend_witness :
    check_moat_core
      [⟨some 40, some 100⟩, ⟨none, none⟩, ⟨none, none⟩, ⟨none, none⟩,
        ⟨none, none⟩] = MoatOutcome.missingMargin ∧
    check_moat_core
      [⟨some 40, some 100⟩, ⟨none, none⟩, ⟨none, none⟩, ⟨none, none⟩,
        ⟨some 50, some 100⟩] =
      (if pyRound2 ((40 : ℚ) - 50) < 0 then
        MoatOutcome.deterioration 40 50 (pyRound2 ((40 : ℚ) - 50))
      else MoatOutcome.stable 40 50 (pyRound2 ((40 : ℚ) - 50))) := by
  constructor
  · exact (C4_margin_trend ⟨some 40, some 100⟩ ⟨none, none⟩ ⟨none, none⟩
      ⟨none, none⟩ ⟨none, none⟩ []).1 (Or.inr (by simp [get_gross_margin]))
  · exact (C4_margin_trend ⟨some 40, some 100⟩ ⟨none, none⟩ ⟨none, none⟩
      ⟨none, none⟩ ⟨some 50, some 100⟩ []).2.1 40 50
      (by norm_num [get_gross_margin, pyRound2, pyRoundInt])
      (by norm_num [get_gross_margin, pyRound2, pyRoundInt])

/-- C10: `check_moat` requires at least 5 quarterly columns for the YoY
comparison — with fewer it returns one of the warning outcomes that carry
no margin values and never classify deterioration or stability; with 5 or
more columns the comparison is taken between column 0 (latest quarter) and
column 4 (same quarter one year earlier). -/
theorem C10_check_moat_quarters :
    (∀ cols : List QuarterCol, cols.length < 5 →
      check_moat_core cols = MoatOutcome.noData ∨
        check_moat_core cols = MoatOutcome.insufficientQuarters)
    ∧ (∀ (cols : List QuarterCol) (cur prev ch : ℚ), cols.length < 5 →
        check_moat_core cols ≠ MoatOutcome.deterioration cur prev ch ∧
          check_moat_core cols ≠ MoatOutcome.stable cur prev ch)
    ∧ (∀ (c0 c1 c2 c3 c4 : QuarterCol) (rest : List QuarterCol),
        check_moat_core (c0 :: c1 :: c2 :: c3 :: c4 :: rest) =
          match get_gross_margin c0, get_gross_margin c4 with
          | some cur, some prev =>
            if pyRound2 (cur - prev) < 0 then
              MoatOutcome.deterioration cur prev (pyRound2 (cur - prev))
            else MoatOutcome.stable cur prev (pyRound2 (cur - prev))
          | _, _ => MoatOutcome.missingMargin) := by
  have hshort : ∀ cols : List QuarterCol, cols.length < 5 →
      check_moat_core cols = MoatOutcome.noData ∨
        check_moat_core cols = MoatOutcome.insufficientQuarters := by
    intro cols hlen
    match cols with
    | [] => left; rfl
    | [_] => right; rfl
    | [_, _] => right; rfl
    | [_, _, _] => right; rfl
    | [_, _, _, _] => right; rfl
    | _ :: _ :: _ :: _ :: _ :: _ => simp at hlen; omega
  refine ⟨hshort, ?_, ?_⟩
  · intro cols cur prev ch hlen
    rcases hshort cols hlen with h | h <;> rw [h] <;> exact ⟨by simp, by simp⟩
  · intro c0 c1 c2 c3 c4 rest
    simp only [check_moat_core]

/-- Witness for C10 at concrete column lists. -/
theorem C10_check_moat_quarters_witness :
    (check_moat_core [⟨some 40, some 100⟩] = MoatOutcome.noData ∨
      check_moat_core [⟨some 40, some 100⟩] =
        MoatOutcome.insufficientQuarters) ∧
    check_moat_core [⟨some 40, some 100⟩] ≠
      MoatOutcome.deterioration 40 50 (-10) :=
  ⟨C10_check_moat_quarters.1 [⟨some 40, some 100⟩] (by norm_num),
   (C10_check_moat_quarters.2.1 [⟨some 40, some 100⟩] 40 50 (-10)
     (by norm_num)).1⟩

/-- C5 counterexample: a list containing only a long-term-trend alert gets
risk level "low" — exactly the level of the empty list, not strictly above
it, refuting the claimed strict severity ordering trend > none. -/
theorem C5_counterexample :
    determine_fx_risk_level
        [⟨"USD/TWD", FXAlertType.longTermTrend, 5, "up", 31, "3m"⟩] = "low"
    ∧ determine_fx_risk_level [] = "low" := by
  constructor <;> simp [determine_fx_risk_level]

/-- C5 (amended): `determine_fx_risk_level` returns the level of the
maximum-severity alert type present with spike > swing > the rest: "high"
when a daily-spike alert is present, otherwise "medium" when a short-term
swing alert is present, otherwise "low" — a long-term-trend alert does not
raise the level above that of an empty list. -/
theorem C5_risk_level_amended (alerts : List FXRateAlert) :
    ((∃ a ∈ alerts, a.alert_type = FXAlertType.dailySpike) →
      determine_fx_risk_level alerts = "high")
    ∧ ((∀ a ∈ alerts, a.alert_type ≠ FXAlertType.dailySpike) →
        (∃ a ∈ alerts, a.alert_type = FXAlertType.shortTermSwing) →
        determine_fx_risk_level alerts = "medium")
    ∧ ((∀ a ∈ alerts, a.alert_type ≠ FXAlertType.dailySpike) →
        (∀ a ∈ alerts, a.alert_type ≠ FXAlertType.shortTermSwing) →
        determine_fx_risk_level alerts = "low") := by
  refine ⟨?_, ?_, ?_⟩
  · intro h
    simp only [determine_fx_risk_level, List.any_eq_true, decide_eq_true_eq]
    rw [if_pos h]
  · intro hno h
    simp only [determine_fx_risk_level, List.any_eq_true, decide_eq_true_eq]
    rw [if_neg, if_pos h]
    rintro ⟨a, ha, hty⟩
    exact hno a ha hty
  · intro hno hns
    simp only [determine_fx_risk_level, List.any_eq_true, decide_eq_true_eq]
    rw [if_neg, if_neg]
    · rintro ⟨a, ha, hty⟩
      exact hns a ha hty
    · rintro ⟨a, ha, hty⟩
      exact hno a ha hty

/-- Witness for the amended C5 at a concrete alert list. -/
theorem C5_risk_level_amended_witness :
    determine_fx_risk_level
      [⟨"USD/TWD", FXAlertType.dailySpike, 5, "up", 31, "1d"⟩] = "high" :=
  (C5_risk_level_amended
    [⟨"USD/TWD", FXAlertType.dailySpike, 5, "up", 31, "1d"⟩]).1
    ⟨_, List.mem_singleton_self _, rfl⟩

/-- C6 counterexample: a signals dict whose RSI is unavailable but whose
moving averages are present produces a status list with no insufficient-data
marker at all — the unavailable RSI is silently omitted rather than marked,
refuting the claim that every unavailable indicator yields an explicit
marker (thresholds instantiated at 30, 70, 15 and -15). -/
theorem C6_counterexample :
    build_signal_status 30 70 15 (-15)
        ⟨some 100, none, some 90, some 95, none⟩ =
      [StatusPart.above200 (some 100) 90, StatusPart.above60 (some 100) 95]
    ∧ (∀ s ∈ build_signal_status 30 70 15 (-15)
        ⟨some 100, none, some 90, some 95, none⟩,
        isInsufficientMarker s = false)
    ∧ (⟨some 100, none, some 90, some 95, none⟩ : SignalsDict).rsi = none := by
  refine ⟨?_, ?_, rfl⟩
  · simp [build_signal_status]
    norm_num
  · intro s hs
    simp [build_signal_status] at hs
    norm_num at hs
    rcases hs with rfl | rfl <;> rfl

/-- C6 (amended): an unavailable indicator never contributes to an alert —
no oversold alert without an RSI value, no below-200MA alert without the
long MA, no below-60MA alert without the short MA — and an unavailable long
MA produces the explicit insufficient-data marker in the status list; but
an unavailable RSI or short MA produces no marker: its status line is
simply omitted. -/
theorem C6_unavailable_indicators :
    (∀ (t : String) (cat : StockCategory) (d : SignalsDict)
        (moat : Option MoatOutcome) (x : String) (r : ℚ), d.rsi = none →
        StockAlert.rsiOversold x r ∉
          scan_stock_core t cat (some (SignalsResult.ok d)) moat)
    ∧ (∀ (t : String) (cat : StockCategory) (d : SignalsDict)
        (moat : Option MoatOutcome) (x : String) (p m : ℚ),
        d.ma200 = none →
        StockAlert.below200MA x p m ∉
          scan_stock_core t cat (some (SignalsResult.ok d)) moat)
    ∧ (∀ (t : String) (cat : StockCategory) (d : SignalsDict)
        (moat : Option MoatOutcome) (x : String) (p m : ℚ),
        d.ma60 = none →
        StockAlert.below60MA x p m ∉
          scan_stock_core t cat (some (SignalsResult.ok d)) moat)
    ∧ (∀ (t1 t2 t3 t4 : ℚ) (d : SignalsDict), d.ma200 = none →
        StatusPart.insufficient200 ∈ build_signal_status t1 t2 t3 t4 d)
    ∧ (∀ (t1 t2 t3 t4 : ℚ) (d : SignalsDict), d.rsi = none →
        ∀ s ∈ build_signal_status t1 t2 t3 t4 d, ¬ isRsiPart s)
    ∧ (∀ (t1 t2 t3 t4 : ℚ) (d : SignalsDict), d.ma60 = none →
        ∀ s ∈ build_signal_status t1 t2 t3 t4 d, ¬ isMa60Part s) := by
  refine ⟨?_, ?_, ?_, ?_, ?_, ?_⟩
  · intro t cat d moat x r hnone
    cases cat <;> simp [scan_stock_core, hnone]
    repeat' split
    all_goals simp
  · intro t cat d moat x p m hnone
    cases cat <;> simp [scan_stock_core, hnone]
    repeat' split
    all_goals simp
  · intro t cat d moat x p m hnone
    cases cat <;> simp [scan_stock_core, hnone]
    repeat' split
    all_goals simp
  · intro t1 t2 t3 t4 d hnone
    simp [build_signal_status, hnone]
  · intro t1 t2 t3 t4 d hnone s hs
    simp only [build_signal_status, hnone, List.nil_append, List.mem_append]
      at hs
    rcases hs with (hs | hs) | hs
    · cases h200 : d.ma200 <;> simp [h200] at hs
      · simp [hs, isRsiPart]
      · cases hp : d.price <;> simp [hp] at hs
        · simp [hs, isRsiPart]
        · split at hs <;> simp_all [isRsiPart]
    · cases h60 : d.ma60 <;> simp [h60] at hs
      cases hp : d.price <;> simp [hp] at hs
      · simp [hs, isRsiPart]
      · split at hs <;> simp_all [isRsiPart]
    · cases hb : d.bias <;> simp [hb] at hs
      split at hs
      · simp_all [isRsiPart]
      · split at hs <;> simp_all [isRsiPart]
  · intro t1 t2 t3 t4 d hnone s hs
    simp only [build_signal_status, hnone, List.append_nil, List.mem_append]
      at hs
    rcases hs with (hs | hs) | hs
    · cases hr : d.rsi <;> simp [hr] at hs
      split at hs
      · simp_all [isMa60Part]
      · split at hs <;> simp_all [isMa60Part]
    · cases h200 : d.ma200 <;> simp [h200] at hs
      · simp [hs, isMa60Part]
      · cases hp : d.price <;> simp [hp] at hs
        · simp [hs, isMa60Part]
        · split at hs <;> simp_all [isMa60Part]
    · cases hb : d.bias <;> simp [hb] at hs
      split at hs
      · simp_all [isMa60Part]
      · split at hs <;> simp_all [isMa60Part]

/-- Witness for the amended C6 at a concrete signals dict. -/
theorem C6_unavailable_indicators_witness :
    StockAlert.rsiOversold "AAPL" 10 ∉
      scan_stock_core "AAPL" StockCategory.trendSetter
        (some (SignalsResult.ok ⟨some 100, none, some 90, some 95, none⟩))
        none :=
  C6_unavailable_indicators.1 "AAPL" StockCategory.trendSetter
    ⟨some 100, none, some 90, some 95, none⟩ none "AAPL" 10 rfl

/-- C2: for a CANDIDATE watch (`should_alert = true`), the dispatcher
suppresses when `now - last_alerted_at < cooldown_hours` (no notification,
timestamp unchanged) and fires otherwise (notification sent,
`last_alerted_at` set to `now`); concretely, with a 24-hour cooldown a
last alert 23 hours ago is suppressed and one 25 hours ago fires with the
timestamp updated; and a watch that is not a CANDIDATE stays IDLE and never
reaches the notify step. -/
theorem C2_dispatch_cooldown (last : Option ℚ) (cooldown now t : ℚ) :
    (last = some t → now - t < cooldown →
      dispatch_watch true last cooldown now =
        (WatchState.suppressed, false, some t))
    ∧ (last = some t → cooldown ≤ now - t →
      dispatch_watch true last cooldown now =
        (WatchState.fired, true, some now))
    ∧ dispatch_watch true (some (now - 23)) 24 now =
        (WatchState.suppressed, false, some (now - 23))
    ∧ dispatch_watch true (some (now - 25)) 24 now =
        (WatchState.fired, true, some now)
    ∧ dispatch_watch false last cooldown now =
        (WatchState.idle, false, last) := by
  refine ⟨?_, ?_, ?_, ?_, ?_⟩
  · intro hl hcd
    subst hl
    simp [dispatch_watch, hcd]
  · intro hl hcd
    subst hl
    simp [dispatch_watch, not_lt.mpr hcd]
  · have h23 : now - (now - 23) < 24 := by ring_nf; norm_num
    simp [dispatch_watch, h23]
    norm_num
  · have h25 : ¬ now - (now - 25) < 24 := by ring_nf; norm_num
    simp [dispatch_watch, h25]
    norm_num
  · simp [dispatch_watch]

/-- Witness for C2 at concrete timestamps. -/
theorem C2_dispatch_cooldown_witness :
    dispatch_watch true (some 77) 24 100 =
      (WatchState.suppressed, false, some 77) ∧
    dispatch_watch true (some 75) 24 100 =
      (WatchState.fired, true, some 100) :=
  ⟨(C2_dispatch_cooldown (some 77) 24 100 77).1 rfl (by norm_num),
   (C2_dispatch_cooldown (some 75) 24 100 75).2.1 rfl (by norm_num)⟩

end Folio
